import Mathlib

/-!
Verification of the yapi-mcp-server cache / batch core (src/request.ts).

The TypeScript source is shallowly embedded here:

* `ApiCache` mirrors the `ApiCache` class.  The backing JavaScript `Map` is
  modelled as an insertion-ordered association list `List (String × CacheEntry V)`
  (JS `Map` iteration order is insertion order; `Map.set` on an existing key
  keeps its position; `Map.delete` removes the unique entry for the key).
  `Date.now()` is made explicit: every operation that reads the clock takes a
  `now : Int` argument.  JS numbers that only ever hold integral values
  (timestamps, ttl, maxSize, errcode) are modelled as `Int`.
* `ApiCache.evictIfNeeded` keeps the source's `if (oldestKey)` truthiness test:
  a JS string is falsy exactly when it is empty, so the guard is `oldestKey ≠ ""`.
* `ApiCache.withCache` stores values of type `Option R`, where `none` stands
  for the JS value `null`: the source's `cached !== null` test conflates a
  cache miss with a cached `null`, which the model expresses with `Option.join`.
* `getGroupInfo` / `getInterfaceList` take the axios response as an explicit
  `Except String (ApiResponse V)` argument (`Except.error` = transport-level
  failure carrying the original message, `Except.ok` = an HTTP reply with
  `errcode`/`errmsg`/`data`).  Thrown JS errors become `Except FetchErr`.
* `batchGetGroupInfo` takes the (stateful) single fetch as an oracle
  `σ → Int → Except String V × σ`; the source's `getGroupInfo` call is such a
  state transformer (state = cache plus transport).
* `preloadInterfaceData` takes the discovered identifier list as an
  `Except String (List Int)` (the result of `getInterfaceList` after flattening
  the category tree) and a per-identifier fetch oracle.
* `getConfigFromArgs` is embedded over an abstract `pint : String → Option Int`
  standing for JS `parseInt` (`none` = `NaN`); `process.argv.slice(2)` is the
  explicit `args : List String` input.
-/

/-- Entry stored by the cache: `data`, creation time `timestamp`, absolute
expiry `expireAt` (source interface `CacheEntry<T>`). -/
structure CacheEntry (V : Type) where
  data : V
  timestamp : Int
  expireAt : Int
deriving DecidableEq

/-- Source interface `CacheConfig`: all three fields optional. -/
structure CacheConfig where
  ttl : Option Int := none
  maxSize : Option Int := none
  enabled : Option Bool := none
deriving DecidableEq

/-- State of an `ApiCache` object: the backing map (insertion ordered) and the
resolved `Required<CacheConfig>` from the constructor. -/
structure ApiCache (V : Type) where
  cache : List (String × CacheEntry V)
  ttl : Int
  maxSize : Int
  enabled : Bool
deriving DecidableEq

/-- JS `Map.get`: first (unique) entry for the key. -/
def mapGet {V : Type} : List (String × CacheEntry V) → String → Option (CacheEntry V)
  | [], _ => none
  | (k1, e) :: rest, k => if k1 = k then some e else mapGet rest k

/-- JS `Map.set`: replace in place if the key is present, else append. -/
def mapSet {V : Type} : List (String × CacheEntry V) → String → CacheEntry V → List (String × CacheEntry V)
  | [], k, e => [(k, e)]
  | (k1, e1) :: rest, k, e => if k1 = k then (k, e) :: rest else (k1, e1) :: mapSet rest k e

/-- JS `Map.delete`: drop the (unique) entry for the key. -/
def mapDelete {V : Type} : List (String × CacheEntry V) → String → List (String × CacheEntry V)
  | [], _ => []
  | (k1, e1) :: rest, k => if k1 = k then rest else (k1, e1) :: mapDelete rest k

/-- `config.ttl || 5 * 60 * 1000`: JS `||` replaces `0` (falsy) and `undefined`. -/
def defaultTtl (x : Option Int) : Int :=
  match x with
  | some t => if t = 0 then 300000 else t
  | none => 300000

/-- `config.maxSize || 100`. -/
def defaultSize (x : Option Int) : Int :=
  match x with
  | some m => if m = 0 then 100 else m
  | none => 100

/-- `config.enabled !== false`. -/
def defaultEnabled (x : Option Bool) : Bool :=
  match x with
  | some false => false
  | _ => true

namespace ApiCache

/-- The `ApiCache` constructor. -/
def ofConfig (V : Type) (cfg : CacheConfig) : ApiCache V :=
  ⟨[], defaultTtl cfg.ttl, defaultSize cfg.maxSize, defaultEnabled cfg.enabled⟩

/-- `generateKey(method, ...args)` builds `` `${method}:${JSON.stringify(args)}` ``;
the serialized argument list is abstracted as the string `argsJson`. -/
def generateKey (method argsJson : String) : String :=
  method ++ ":" ++ argsJson

/-- The `for (const [key, entry] of this.cache.entries())` scan of
`evictIfNeeded`: accumulator is `(oldestKey, oldestTime)` with the initial
`oldestTime = Infinity` modelled as `none`. -/
def findOldestAux {V : Type} : List (String × CacheEntry V) → String → Option Int → String × Option Int
  | [], k, t => (k, t)
  | (k1, e) :: rest, k, t =>
    match t with
    | none => findOldestAux rest k1 (some e.timestamp)
    | some tv =>
      if e.timestamp < tv then findOldestAux rest k1 (some e.timestamp)
      else findOldestAux rest k (some tv)

/-- `evictIfNeeded`: when `size >= maxSize`, scan for the entry with the least
`timestamp` and delete it — but only under the JS truthiness guard
`if (oldestKey)`, i.e. only when the found key is a nonempty string. -/
def evictIfNeeded {V : Type} (c : ApiCache V) : ApiCache V :=
  if c.maxSize ≤ (c.cache.length : Int) then
    if (findOldestAux c.cache "" none).1 = "" then c
    else { c with cache := mapDelete c.cache (findOldestAux c.cache "" none).1 }
  else c

/-- `get<T>(key)`: miss when disabled, absent, or `now >= expireAt` (the
expired entry is deleted on the way); otherwise return the stored data.
Returns the value (`none` = JS `null`) together with the updated state. -/
def get {V : Type} (c : ApiCache V) (key : String) (now : Int) : Option V × ApiCache V :=
  if c.enabled = false then (none, c)
  else
    match mapGet c.cache key with
    | none => (none, c)
    | some e =>
      if e.expireAt ≤ now then (none, { c with cache := mapDelete c.cache key })
      else (some e.data, c)

/-- `set<T>(key, data)`: no-op when disabled; otherwise evict if needed, then
insert/replace the entry with `timestamp = now`, `expireAt = now + ttl`. -/
def set {V : Type} (c : ApiCache V) (key : String) (data : V) (now : Int) : ApiCache V :=
  if c.enabled = false then c
  else { evictIfNeeded c with cache := mapSet (evictIfNeeded c).cache key ⟨data, now, now + c.ttl⟩ }

/-- `delete(key)`: returns whether an entry was removed, with the new state. -/
def del {V : Type} (c : ApiCache V) (key : String) : Bool × ApiCache V :=
  ((mapGet c.cache key).isSome, { c with cache := mapDelete c.cache key })

/-- `clear()`. -/
def clear {V : Type} (c : ApiCache V) : ApiCache V :=
  { c with cache := [] }

/-- `cleanup()`: sweep all expired entries (`now >= expireAt`). -/
def cleanup {V : Type} (c : ApiCache V) (now : Int) : ApiCache V :=
  { c with cache := c.cache.filter (fun p => decide (now < p.2.expireAt)) }

/-- `getStats()` result record. -/
structure Stats where
  size : Nat
  maxSize : Int
  ttl : Int
  enabled : Bool
  keys : List String
deriving DecidableEq

/-- `getStats()`: cleanup first, then report live entries. -/
def getStats {V : Type} (c : ApiCache V) (now : Int) : Stats × ApiCache V :=
  (⟨(cleanup c now).cache.length, c.maxSize, c.ttl, c.enabled,
    (cleanup c now).cache.map (fun p => p.1)⟩, cleanup c now)

/-- `withCache(method, fn)` applied to one call, with the fetch outcome given
as `fetchResult`.  Values have type `Option R` with `none` = JS `null`, so the
source's hit test `cached !== null` is `Option.join (get …) = some r`.  The
final `Nat` counts how often the wrapped `fn` was invoked during this call. -/
def withCache {R E : Type} (c : ApiCache (Option R)) (method argsJson : String) (now : Int)
    (fetchResult : Except E (Option R)) : Except E (Option R) × ApiCache (Option R) × Nat :=
  match Option.join (get c (generateKey method argsJson) now).1 with
  | some r => (Except.ok (some r), (get c (generateKey method argsJson) now).2, 0)
  | none =>
    match fetchResult with
    | Except.ok v =>
      (Except.ok v, set (get c (generateKey method argsJson) now).2 (generateKey method argsJson) v now, 1)
    | Except.error e => (Except.error e, (get c (generateKey method argsJson) now).2, 1)

end ApiCache

/-- The chunking loop of `preloadInterfaceData`:
`for (let i = 0; i < ids.length; i += 5) { batch = ids.slice(i, i + 5); … }`,
i.e. consecutive slices of at most 5 elements. -/
def chunksOf5 {α : Type} : List α → List (List α)
  | [] => []
  | a :: b :: c :: d :: e :: rest => [a, b, c, d, e] :: chunksOf5 rest
  | l => [l]

/-- Await structure of `batchGetGroupInfo`: the `for (const id of ids)` loop
awaits each `getGroupInfo(id)` before starting the next one, so each round of
settled fetches contains exactly one identifier. -/
def batchGetRounds (ids : List Int) : List (List Int) :=
  ids.map (fun i => [i])

/-- `batchGetGroupInfo(ids)`: sequentially fetch every id, pushing successes
onto `results` and `{id, error.message}` pairs onto `errors` (the `errors`
array is reported in the completion warning).  The single fetch
(`getGroupInfo`, i.e. cache + transport) is an explicit state transformer
`fetch : σ → Int → Except String V × σ`.  Returns
`(results, errors, final state)`. -/
def batchGetGroupInfo {σ V : Type} (fetch : σ → Int → Except String V × σ) :
    σ → List Int → List V × List (Int × String) × σ
  | s, [] => ([], [], s)
  | s, id :: rest =>
    match fetch s id with
    | (Except.ok v, s2) =>
      (v :: (batchGetGroupInfo fetch s2 rest).1, (batchGetGroupInfo fetch s2 rest).2)
    | (Except.error e, s2) =>
      ((batchGetGroupInfo fetch s2 rest).1, (id, e) :: (batchGetGroupInfo fetch s2 rest).2.1,
        (batchGetGroupInfo fetch s2 rest).2.2)

/-- Per-identifier outcome trace of the `batchGetGroupInfo` loop, in loop
order: each id paired with the result its fetch produced at that point. -/
def batchTrace {σ V : Type} (fetch : σ → Int → Except String V × σ) :
    σ → List Int → List (Int × Except String V)
  | _, [] => []
  | s, id :: rest => (id, (fetch s id).1) :: batchTrace fetch (fetch s id).2 rest

/-- True when an `Except` is a failure. -/
def exceptFails {ε α : Type} (r : Except ε α) : Bool :=
  match r with
  | Except.error _ => true
  | Except.ok _ => false

/-- Observable result of one `preloadInterfaceData(projectId)` run:
`outcome` is what the returned promise does for the caller, `rounds` the
chunked batches that were driven, `failedIds` the ids whose fetch failed (each
logged by the `.catch` handler and replaced by `null`), `caught` the error
swallowed by the surrounding `try/catch` (logged as `预加载失败`), if any. -/
structure PreloadRun (V : Type) where
  outcome : Except String Unit
  rounds : List (List Int)
  failedIds : List Int
  caught : Option String

/-- `preloadInterfaceData`: the whole body is wrapped in `try { … } catch
(error) { console.error(…) }` with no rethrow, so the promise always resolves.
`listing` is the outcome of `getInterfaceList` + flattening the categories to
`interfaceIds`; `fetch` gives each `getGroupInfo(id)` outcome.  Inside a chunk
every promise carries `.catch(err => { console.warn(…); return null; })`, so
`Promise.all` never rejects. -/
def preloadInterfaceData {V : Type} (listing : Except String (List Int))
    (fetch : Int → Except String V) : PreloadRun V :=
  match listing with
  | Except.error e => ⟨Except.ok (), [], [], some e⟩
  | Except.ok ids =>
    ⟨Except.ok (), chunksOf5 ids, ids.filter (fun i => exceptFails (fetch i)), none⟩

/-- Origin `errcode`/`errmsg`/`data` payload of a YApi HTTP reply
(`CategoryResult` / `ApiDetailResult` in the source). -/
structure ApiResponse (V : Type) where
  errcode : Int
  errmsg : String
  data : V
deriving DecidableEq

/-- Errors thrown by `getGroupInfo`/`getInterfaceList`: `api` is the source's
`ApiError` (origin-reported, carries `errcode` and `errmsg`); `generic` is the
fresh `new Error(message)` minted in the non-`ApiError` catch branch. -/
inductive FetchErr where
  | api (errcode : Int) (errmsg : String)
  | generic (msg : String)
deriving DecidableEq

/-- Message of the substitute error thrown by `getGroupInfo` for
non-`ApiError` failures. -/
def unknownDetailMsg : String := "获取接口详情时发生未知错误"

/-- Message of the substitute error thrown by `getInterfaceList` for
non-`ApiError` failures. -/
def unknownListMsg : String := "获取接口列表时发生未知错误"

/-- Cache key used by `getGroupInfo(id)`:
`generateKey('getGroupInfo', id) = "getGroupInfo:" + JSON.stringify([id])`. -/
def getGroupInfoKey (id : Int) : String :=
  ApiCache.generateKey "getGroupInfo" ("[" ++ toString id ++ "]")

/-- Cache key used by `getInterfaceList(projectId)`. -/
def getInterfaceListKey (projectId : Int) : String :=
  ApiCache.generateKey "getInterfaceList" ("[" ++ toString projectId ++ "]")

/-- `getGroupInfo(id)` with the axios reply made explicit: consult the cache;
on miss, a transport failure (`resp = Except.error …`) lands in the catch
branch which throws a NEW generic error; a reply with `errcode == 0` is cached
and returned; a reply with `errcode ≠ 0` raises `ApiError(errcode, errmsg)`,
which the catch branch rethrows unchanged. -/
def getGroupInfo {V : Type} (c : ApiCache V) (id : Int) (now : Int)
    (resp : Except String (ApiResponse V)) : Except FetchErr V × ApiCache V :=
  match (ApiCache.get c (getGroupInfoKey id) now).1 with
  | some v => (Except.ok v, (ApiCache.get c (getGroupInfoKey id) now).2)
  | none =>
    match resp with
    | Except.error _ =>
      (Except.error (FetchErr.generic unknownDetailMsg), (ApiCache.get c (getGroupInfoKey id) now).2)
    | Except.ok r =>
      if r.errcode = 0 then
        (Except.ok r.data,
          ApiCache.set (ApiCache.get c (getGroupInfoKey id) now).2 (getGroupInfoKey id) r.data now)
      else
        (Except.error (FetchErr.api r.errcode r.errmsg), (ApiCache.get c (getGroupInfoKey id) now).2)

/-- `getInterfaceList(projectId)`: same structure as `getGroupInfo`. -/
def getInterfaceList {V : Type} (c : ApiCache V) (projectId : Int) (now : Int)
    (resp : Except String (ApiResponse V)) : Except FetchErr V × ApiCache V :=
  match (ApiCache.get c (getInterfaceListKey projectId) now).1 with
  | some v => (Except.ok v, (ApiCache.get c (getInterfaceListKey projectId) now).2)
  | none =>
    match resp with
    | Except.error _ =>
      (Except.error (FetchErr.generic unknownListMsg),
        (ApiCache.get c (getInterfaceListKey projectId) now).2)
    | Except.ok r =>
      if r.errcode = 0 then
        (Except.ok r.data,
          ApiCache.set (ApiCache.get c (getInterfaceListKey projectId) now).2
            (getInterfaceListKey projectId) r.data now)
      else
        (Except.error (FetchErr.api r.errcode r.errmsg),
          (ApiCache.get c (getInterfaceListKey projectId) now).2)

/-- The `Config` object returned by `getConfigFromArgs`. -/
structure Config where
  baseURL : String
  cookie : String
  requestParams : List (String × String)
  cacheConfig : CacheConfig
deriving DecidableEq

/-- The `--cache-ttl` branch: `parseInt`, then update only when
`!isNaN(ttlMinutes) && ttlMinutes > 0`; minutes are converted to ms. -/
def applyTtlArg (cc : CacheConfig) (pv : Option Int) : CacheConfig :=
  match pv with
  | some v => if 0 < v then { cc with ttl := some (v * 60000) } else cc
  | none => cc

/-- The `--cache-size` branch: update only when `!isNaN(size) && size > 0`. -/
def applySizeArg (cc : CacheConfig) (pv : Option Int) : CacheConfig :=
  match pv with
  | some v => if 0 < v then { cc with maxSize := some v } else cc
  | none => cc

/-- The literal `"--"`. -/
def dashDash : String := "--"

/-- The argument-parsing loop of `getConfigFromArgs`.  `pint` abstracts JS
`parseInt(·, 10)` (`none` = `NaN`).  A branch guarded by `nextArg` requires a
following argument that is a truthy (nonempty) string; branches that consume
`nextArg` skip it (`i++`). -/
def parseArgsLoop (pint : String → Option Int) : List String → Config → Config
  | [], st => st
  | [a], st =>
    if a = "--no-cache" then
      { st with cacheConfig := { st.cacheConfig with enabled := some false } }
    else if a = "--enable-cache" then
      { st with cacheConfig := { st.cacheConfig with enabled := some true } }
    else st
  | a :: n :: rest2, st =>
    if (a = "--baseURL" ∨ a = "-u") ∧ n ≠ "" then
      parseArgsLoop pint rest2 { st with baseURL := n }
    else if (a = "--cookie" ∨ a = "-c") ∧ n ≠ "" then
      parseArgsLoop pint rest2 { st with cookie := n }
    else if (a = "--cache-ttl" ∨ a = "-t") ∧ n ≠ "" then
      parseArgsLoop pint rest2 { st with cacheConfig := applyTtlArg st.cacheConfig (pint n) }
    else if (a = "--cache-size" ∨ a = "-s") ∧ n ≠ "" then
      parseArgsLoop pint rest2 { st with cacheConfig := applySizeArg st.cacheConfig (pint n) }
    else if a = "--no-cache" then
      parseArgsLoop pint (n :: rest2)
        { st with cacheConfig := { st.cacheConfig with enabled := some false } }
    else if a = "--enable-cache" then
      parseArgsLoop pint (n :: rest2)
        { st with cacheConfig := { st.cacheConfig with enabled := some true } }
    else if a.startsWith dashDash = true ∧ n ≠ "" ∧ n.startsWith dashDash = false then
      parseArgsLoop pint rest2 { st with requestParams := st.requestParams ++ [(a.drop 2, n)] }
    else
      parseArgsLoop pint (n :: rest2) st
termination_by l _ => l.length
decreasing_by all_goals (simp_wf <;> omega)

/-- `getConfigFromArgs()`: run the parse loop with the default cache config
`{ ttl: 300000, maxSize: 100, enabled: true }`, then `process.exit(1)`
(modelled as `none`) when `baseURL` or `cookie` is missing. -/
def getConfigFromArgs (pint : String → Option Int) (args : List String) : Option Config :=
  if (parseArgsLoop pint args ⟨"", "", [], ⟨some 300000, some 100, some true⟩⟩).baseURL = "" then
    none
  else if (parseArgsLoop pint args ⟨"", "", [], ⟨some 300000, some 100, some true⟩⟩).cookie = "" then
    none
  else some (parseArgsLoop pint args ⟨"", "", [], ⟨some 300000, some 100, some true⟩⟩)

/-- A cache config whose `ttl` and `maxSize` are present and strictly
positive. -/
def PosCC (cc : CacheConfig) : Prop :=
  (∃ t, cc.ttl = some t ∧ 0 < t) ∧ (∃ m, cc.maxSize = some m ∧ 0 < m)

deriving instance DecidableEq for Except

/-- A reachable cache state holding one entry (under the key of method `m`
with serialized args `[]`) created at time 0 with `ttl = 100`, hence expired
from time 100 on. -/
def expiredEntryCache : ApiCache (Option Nat) :=
  ⟨[(ApiCache.generateKey "m" "[]", ⟨some 1, 0, 100⟩)], 100, 100, true⟩

section MapLemmas

variable {V : Type}

theorem mapGet_mapSet_self (m : List (String × CacheEntry V)) (k : String) (e : CacheEntry V) :
    mapGet (mapSet m k e) k = some e := by
  induction m with
  | nil => simp [mapSet, mapGet]
  | cons p rest ih =>
    obtain ⟨k1, e1⟩ := p
    by_cases h : k1 = k
    · simp [mapSet, h, mapGet]
    · simp [mapSet, h, mapGet, ih]

theorem mapDelete_sublist (m : List (String × CacheEntry V)) (k : String) :
    (mapDelete m k).Sublist m := by
  induction m with
  | nil => simp [mapDelete]
  | cons p rest ih =>
    obtain ⟨k1, e1⟩ := p
    by_cases h : k1 = k
    · subst h
      simp only [mapDelete, if_pos]
      exact (List.Sublist.refl rest).cons (k1, e1)
    · simpa [mapDelete, h] using List.Sublist.cons₂ (k1, e1) ih

end MapLemmas

section CacheLemmas

variable {V : Type}

theorem evictIfNeeded_fields (c : ApiCache V) :
    (ApiCache.evictIfNeeded c).ttl = c.ttl ∧ (ApiCache.evictIfNeeded c).maxSize = c.maxSize ∧
      (ApiCache.evictIfNeeded c).enabled = c.enabled := by
  unfold ApiCache.evictIfNeeded
  split
  · split
    · exact ⟨rfl, rfl, rfl⟩
    · exact ⟨rfl, rfl, rfl⟩
  · exact ⟨rfl, rfl, rfl⟩

theorem get_cache_sublist (c : ApiCache V) (k : String) (now : Int) :
    ((ApiCache.get c k now).2).cache.Sublist c.cache := by
  unfold ApiCache.get
  by_cases he : c.enabled = false
  · simp [he]
  · simp only [he, if_false]
    cases hm : mapGet c.cache k with
    | none => simp
    | some e =>
      by_cases hx : e.expireAt ≤ now
      · simpa [hx] using mapDelete_sublist c.cache k
      · simp [hx]

theorem get_set_self (c : ApiCache V) (k : String) (v : V) (t t2 : Int) (h : c.enabled = true) :
    (ApiCache.get (ApiCache.set c k v t) k t2).1 =
      if t + c.ttl ≤ t2 then none else some v := by
  have hne : ¬ c.enabled = false := by simp [h]
  have hset : ApiCache.set c k v t =
      { ApiCache.evictIfNeeded c with
        cache := mapSet (ApiCache.evictIfNeeded c).cache k ⟨v, t, t + c.ttl⟩ } := by
    unfold ApiCache.set
    rw [if_neg hne]
  rw [hset]
  unfold ApiCache.get
  have hev : (ApiCache.evictIfNeeded c).enabled = true := (evictIfNeeded_fields c).2.2.trans h
  rw [if_neg (by simp [hev])]
  simp only [mapGet_mapSet_self]
  by_cases hx : t + c.ttl ≤ t2
  · simp [hx]
  · simp [hx]

end CacheLemmas

/-- C2 (confirmed): with caching enabled and `ttl > 0`, after `set(k, v)` at
time `t`, a `get(k)` at time `t2` returns `v` exactly when `t2 < t + ttl` and
is a miss once `t2 ≥ t + ttl` (the expired entry is dropped even though it was
never explicitly deleted); in particular a `get(k)` immediately after the
`set(k, v)` returns `v`. -/
theorem claim_c2_set_then_get {V : Type} (c : ApiCache V) (k : String) (v : V) (t t2 : Int)
    (h1 : c.enabled = true) (h2 : 0 < c.ttl) :
    (ApiCache.get (ApiCache.set c k v t) k t2).1 =
      (if t2 < t + c.ttl then some v else none) ∧
    (ApiCache.get (ApiCache.set c k v t) k t).1 = some v := by
  constructor
  · rw [get_set_self c k v t t2 h1]
    by_cases hx : t + c.ttl ≤ t2
    · rw [if_pos hx, if_neg (by omega)]
    · rw [if_neg hx, if_pos (by omega)]
  · rw [get_set_self c k v t t h1, if_neg (by omega)]

/-- Witness for C2: a concrete default-configured cache (`ttl = 300000`,
enabled); `set "k" 42` at `t = 0` then `get "k"` at `t2 = 999` hits. -/
theorem claim_c2_set_then_get_witness :
    (ApiCache.get (ApiCache.set (ApiCache.ofConfig Nat ⟨none, none, none⟩) "k" 42 0) "k" 999).1 =
      (if (999 : Int) < 0 + (ApiCache.ofConfig Nat ⟨none, none, none⟩).ttl then some 42 else none) ∧
    (ApiCache.get (ApiCache.set (ApiCache.ofConfig Nat ⟨none, none, none⟩) "k" 42 0) "k" 0).1 =
      some 42 :=
  claim_c2_set_then_get (ApiCache.ofConfig Nat ⟨none, none, none⟩) "k" 42 0 999 rfl (by decide)

/-- C1 (code_bug): with `maxSize = 2`, after inserting the three distinct keys
`""` (t=0), `"b"` (t=1), `"c"` (t=2) the store holds 3 entries and the
earliest-inserted entry (key `""`, timestamp 0) was NOT evicted: the scan in
`evictIfNeeded` finds `oldestKey = ""`, and the JS truthiness guard
`if (oldestKey)` treats the empty-string key as "nothing found", skipping the
deletion the function was written to perform. -/
theorem claim_c1_empty_key_eviction_skipped :
    (ApiCache.set (ApiCache.set (ApiCache.set
        (ApiCache.ofConfig Nat ⟨none, some 2, none⟩) "" 10 0) "b" 11 1) "c" 12 2).cache.length = 3 ∧
    mapGet (ApiCache.set (ApiCache.set (ApiCache.set
        (ApiCache.ofConfig Nat ⟨none, some 2, none⟩) "" 10 0) "b" 11 1) "c" 12 2).cache ""
      = some ⟨10, 0, 300000⟩ := by
  decide

/-- C3 (code_bug): with `maxSize = 1`, `set ""` then `set "x"` leaves 2 entries
in the store immediately after a `set` call, exceeding `maxSize`: the eviction
that should have freed a slot is skipped by the `if (oldestKey)` guard because
the oldest entry's key is the (falsy) empty string. -/
theorem claim_c3_maxSize_exceeded :
    (ApiCache.set (ApiCache.set
        (ApiCache.ofConfig Nat ⟨none, some 1, none⟩) "" 0 0) "x" 1 1).cache.length = 2 ∧
    (ApiCache.ofConfig Nat ⟨none, some 1, none⟩).maxSize = 1 := by
  decide

section ChunkLemmas

variable {α : Type}

theorem chunksOf5_join : ∀ l : List α, (chunksOf5 l).flatten = l
  | [] => by simp [chunksOf5]
  | [a] => by simp [chunksOf5]
  | [a, b] => by simp [chunksOf5]
  | [a, b, c] => by simp [chunksOf5]
  | [a, b, c, d] => by simp [chunksOf5]
  | a :: b :: c :: d :: e :: rest => by
    simp [chunksOf5, chunksOf5_join rest]

theorem chunksOf5_length : ∀ l : List α, (chunksOf5 l).length = (l.length + 4) / 5
  | [] => by simp [chunksOf5]
  | [a] => by simp [chunksOf5]
  | [a, b] => by simp [chunksOf5]
  | [a, b, c] => by simp [chunksOf5]
  | [a, b, c, d] => by simp [chunksOf5]
  | a :: b :: c :: d :: e :: rest => by
    have ih := chunksOf5_length rest
    simp only [chunksOf5, List.length_cons, ih]
    omega

theorem chunksOf5_all_le :
    ∀ l : List α, ((chunksOf5 l).all fun ch => decide (ch.length ≤ 5)) = true
  | [] => by simp [chunksOf5]
  | [a] => by simp [chunksOf5]
  | [a, b] => by simp [chunksOf5]
  | [a, b, c] => by simp [chunksOf5]
  | [a, b, c, d] => by simp [chunksOf5]
  | a :: b :: c :: d :: e :: rest => by
    have ih := chunksOf5_all_le rest
    simp [chunksOf5, ih]

theorem batchGetRounds_join (ids : List Int) : (batchGetRounds ids).flatten = ids := by
  induction ids with
  | nil => rfl
  | cons a rest ih =>
    simp only [batchGetRounds, List.map_cons, List.flatten_cons] at ih ⊢
    simp [ih]

end ChunkLemmas

/-- C5 counterexample: `batchGetGroupInfo` over the six identifiers
`[1,2,3,4,5,6]` performs 6 sequential single-fetch rounds, not
`ceil(6/5) = 2` chunked rounds: the claim's chunking does not hold for the
batch operation. -/
theorem claim_c5_counterexample :
    ¬ (batchGetRounds [1, 2, 3, 4, 5, 6]).length = 2 := by
  decide

/-- C5 (corrected): the chunking described by the claim is performed by the
preload loop, not by `batchGetGroupInfo`.  The preload rounds are exactly
`chunksOf5 ids`: consecutive chunks of at most 5 identifiers, preserving
order (their concatenation is the input), `ceil(N/5)` of them; whereas
`batchGetGroupInfo` awaits the `N` identifiers strictly one at a time
(`N` single-identifier rounds, in input order). -/
theorem claim_c5_chunking {V : Type} (ids : List Int) (fetch : Int → Except String V) :
    (preloadInterfaceData (Except.ok ids) fetch).rounds = chunksOf5 ids ∧
    (chunksOf5 ids).flatten = ids ∧
    ((chunksOf5 ids).all fun ch => decide (ch.length ≤ 5)) = true ∧
    (chunksOf5 ids).length = (ids.length + 4) / 5 ∧
    (batchGetRounds ids).length = ids.length ∧
    (batchGetRounds ids).flatten = ids :=
  ⟨rfl, chunksOf5_join ids, chunksOf5_all_le ids, chunksOf5_length ids,
    by simp [batchGetRounds], batchGetRounds_join ids⟩

/-- C6 counterexample: when obtaining the identifier list fails, the preload
promise still resolves normally (`outcome = ok ()`); the failure is swallowed
by the surrounding catch (recorded in `caught`, logged as `预加载失败`), so
preload does NOT fail outward to its caller. -/
theorem claim_c6_counterexample :
    (preloadInterfaceData (V := Nat) (Except.error "listing failed") (fun _ => Except.ok 0)).outcome
      = Except.ok () ∧
    (preloadInterfaceData (V := Nat) (Except.error "listing failed") (fun _ => Except.ok 0)).caught
      = some "listing failed" :=
  ⟨rfl, rfl⟩

/-- C6 (corrected): the preload operation never fails outward, for every
listing outcome and every per-item fetch behaviour: a listing failure is
caught and logged, item failures are logged per item, and the returned
promise always resolves. -/
theorem claim_c6_preload_never_fails {V : Type} (listing : Except String (List Int))
    (fetch : Int → Except String V) :
    (preloadInterfaceData listing fetch).outcome = Except.ok () := by
  cases listing <;> rfl

/-- C8 (confirmed): for every input list and every (stateful) fetch behaviour,
the `batchGetGroupInfo` loop visits each identifier exactly once in input
order (the trace's identifiers are the input list), records exactly the
successful fetches in `results` and exactly the failed ones as
`(id, error message)` in `errors` (both in visit order), and accounts for
every identifier exactly once (`|results| + |errors| = N`) — a failure for
one identifier never aborts the loop or prevents any other identifier from
being fetched and recorded. -/
theorem claim_c8_batch_accounting {σ V : Type} (fetch : σ → Int → Except String V × σ)
    (s : σ) (ids : List Int) :
    (batchTrace fetch s ids).map Prod.fst = ids ∧
    (batchGetGroupInfo fetch s ids).1 =
      (batchTrace fetch s ids).filterMap
        (fun p => match p.2 with | Except.ok v => some v | Except.error _ => none) ∧
    (batchGetGroupInfo fetch s ids).2.1 =
      (batchTrace fetch s ids).filterMap
        (fun p => match p.2 with | Except.ok _ => none | Except.error e => some (p.1, e)) ∧
    (batchGetGroupInfo fetch s ids).1.length + (batchGetGroupInfo fetch s ids).2.1.length
      = ids.length := by
  induction ids generalizing s with
  | nil => simp [batchGetGroupInfo, batchTrace]
  | cons id rest ih =>
    rcases hfe : fetch s id with ⟨r, s2⟩
    obtain ⟨h1, h2, h3, h4⟩ := ih s2
    cases r with
    | ok v =>
      refine ⟨?_, ?_, ?_, ?_⟩
      · simp [batchTrace, hfe, h1]
      · simp [batchGetGroupInfo, batchTrace, hfe, h2]
      · simp [batchGetGroupInfo, batchTrace, hfe, h3]
      · simp only [batchGetGroupInfo, hfe, List.length_cons]
        omega
    | error e =>
      refine ⟨?_, ?_, ?_, ?_⟩
      · simp [batchTrace, hfe, h1]
      · simp [batchGetGroupInfo, batchTrace, hfe, h2]
      · simp [batchGetGroupInfo, batchTrace, hfe, h3]
      · simp only [batchGetGroupInfo, hfe, List.length_cons]
        omega

/-- C4 counterexample: a `withCache` call that misses because the entry under
the computed key has expired deletes that entry during the lookup; when the
fetch then fails, the failure propagates but the cache contents are NOT left
unchanged (the expired entry is gone), refuting the claim as stated. -/
theorem claim_c4_counterexample :
    (ApiCache.withCache expiredEntryCache "m" "[]" 100 (Except.error "boom")).2.1
      ≠ expiredEntryCache := by
  decide

/-- C4 (corrected): on an observed miss, `withCache` invokes the underlying
fetch exactly once; a successful fetch is stored under the computed key and
returned; a failed fetch propagates unchanged and nothing is written — the
resulting cache is exactly the post-lookup state, which never gains an entry
(it is a sublist of the original contents: at most the expired entry under
the computed key was removed by the lookup itself). -/
theorem claim_c4_withCache_miss {R E : Type} (c : ApiCache (Option R)) (m a : String)
    (now : Int) (v : Option R) (e : E)
    (h : Option.join (ApiCache.get c (ApiCache.generateKey m a) now).1 = none) :
    ApiCache.withCache (E := E) c m a now (Except.ok v) =
      (Except.ok v,
        ApiCache.set (ApiCache.get c (ApiCache.generateKey m a) now).2
          (ApiCache.generateKey m a) v now, 1) ∧
    ApiCache.withCache c m a now (Except.error e) =
      (Except.error e, (ApiCache.get c (ApiCache.generateKey m a) now).2, 1) ∧
    ((ApiCache.get c (ApiCache.generateKey m a) now).2).cache.Sublist c.cache := by
  refine ⟨?_, ?_, get_cache_sublist c (ApiCache.generateKey m a) now⟩
  · simp only [ApiCache.withCache, h]
  · simp only [ApiCache.withCache, h]

/-- Witness for C4: on the empty default cache the lookup misses; the
successful fetch of `some 5` is stored and returned, the failed fetch
propagates `"E"` with the cache left as the post-lookup state. -/
theorem claim_c4_withCache_miss_witness :
    ApiCache.withCache (E := String) (ApiCache.ofConfig (Option Nat) ⟨none, none, none⟩) "m" "[]" 0
        (Except.ok (some 5)) =
      (Except.ok (some 5),
        ApiCache.set
          (ApiCache.get (ApiCache.ofConfig (Option Nat) ⟨none, none, none⟩)
            (ApiCache.generateKey "m" "[]") 0).2
          (ApiCache.generateKey "m" "[]") (some 5) 0, 1) ∧
    ApiCache.withCache (ApiCache.ofConfig (Option Nat) ⟨none, none, none⟩) "m" "[]" 0
        (Except.error "E") =
      (Except.error "E",
        (ApiCache.get (ApiCache.ofConfig (Option Nat) ⟨none, none, none⟩)
          (ApiCache.generateKey "m" "[]") 0).2, 1) ∧
    ((ApiCache.get (ApiCache.ofConfig (Option Nat) ⟨none, none, none⟩)
        (ApiCache.generateKey "m" "[]") 0).2).cache.Sublist
      (ApiCache.ofConfig (Option Nat) ⟨none, none, none⟩).cache :=
  claim_c4_withCache_miss (ApiCache.ofConfig (Option Nat) ⟨none, none, none⟩) "m" "[]" 0
    (some 5) "E" rfl

theorem join_get_set_none {R : Type} (c : ApiCache (Option R)) (k : String) (t t2 : Int) :
    Option.join (ApiCache.get (ApiCache.set c k none t) k t2).1 = none := by
  by_cases h : c.enabled = true
  · rw [get_set_self c k none t t2 h]
    by_cases hx : t + c.ttl ≤ t2
    · rw [if_pos hx]; rfl
    · rw [if_neg hx]; rfl
  · have hf : c.enabled = false := by
      revert h; cases c.enabled <;> simp
    have hs : ApiCache.set c k none t = c := by
      unfold ApiCache.set; rw [if_pos hf]
    rw [hs]
    unfold ApiCache.get
    rw [if_pos hf]
    rfl

/-- C10 (confirmed): when the underlying fetch resolves with `null`
(`Except.ok none`), the `withCache`-wrapped call returns `null` to its caller,
and the stored `null` is never served as a hit: the next call with the same
operation identifier and arguments — at any time, with any fetch behaviour —
observes a miss (the `cached !== null` test fails on the cached `null`) and
invokes the underlying fetch again (invocation count 1). -/
theorem claim_c10_cached_null_not_hit {R E : Type} (c : ApiCache (Option R)) (m a : String)
    (t t2 : Int) (f2 : Except E (Option R))
    (h : Option.join (ApiCache.get c (ApiCache.generateKey m a) t).1 = none) :
    (ApiCache.withCache (E := E) c m a t (Except.ok none)).1 = Except.ok none ∧
    (ApiCache.withCache (ApiCache.withCache (E := E) c m a t (Except.ok none)).2.1
        m a t2 f2).2.2 = 1 := by
  have hfst : ApiCache.withCache (E := E) c m a t (Except.ok none)
      = (Except.ok none,
          ApiCache.set (ApiCache.get c (ApiCache.generateKey m a) t).2
            (ApiCache.generateKey m a) none t, 1) := by
    simp only [ApiCache.withCache, h]
  constructor
  · rw [hfst]
  · rw [hfst]
    have h2 := join_get_set_none (ApiCache.get c (ApiCache.generateKey m a) t).2
      (ApiCache.generateKey m a) t t2
    simp only [ApiCache.withCache, h2]
    cases f2 <;> rfl

/-- Witness for C10: empty default cache, fetch resolves `null` at time 0; the
call returns `null` and a second call at time 1 with a succeeding fetch still
invokes the fetch (count 1). -/
theorem claim_c10_cached_null_not_hit_witness :
    (ApiCache.withCache (E := String) (ApiCache.ofConfig (Option Nat) ⟨none, none, none⟩)
        "m" "[]" 0 (Except.ok none)).1 = Except.ok none ∧
    (ApiCache.withCache (E := String)
        (ApiCache.withCache (E := String) (ApiCache.ofConfig (Option Nat) ⟨none, none, none⟩)
          "m" "[]" 0 (Except.ok none)).2.1
        "m" "[]" 1 (Except.ok (some 7))).2.2 = 1 :=
  claim_c10_cached_null_not_hit (ApiCache.ofConfig (Option Nat) ⟨none, none, none⟩)
    "m" "[]" 0 1 (Except.ok (some 7)) rfl

/-- C7 counterexample: on a miss, a transport-level failure (here with message
`"ECONNREFUSED"`) is NOT propagated to the caller unmodified: `getGroupInfo`
throws a fresh generic error with the fixed message `获取接口详情时发生未知错误`
instead of the original error. -/
theorem claim_c7_counterexample :
    (getGroupInfo (ApiCache.ofConfig Nat ⟨none, none, none⟩) 7 0
        (Except.error "ECONNREFUSED")).1
      = Except.error (FetchErr.generic unknownDetailMsg) ∧
    ¬ (getGroupInfo (ApiCache.ofConfig Nat ⟨none, none, none⟩) 7 0
        (Except.error "ECONNREFUSED")).1
      = Except.error (FetchErr.generic "ECONNREFUSED") := by
  decide

/-- C7 (corrected): on a miss, origin errors (`ApiError`, i.e. a reply with
`errcode ≠ 0`) are rethrown to the immediate caller unmodified — same code,
same message — with nothing cached; transport/unknown errors are NOT
propagated unmodified: they are replaced by a fresh generic error
(`获取接口详情时发生未知错误` resp. `获取接口列表时发生未知错误`), also with
nothing cached and no substitute fallback value.  This holds for both
single-item fetch operations. -/
theorem claim_c7_error_propagation {V : Type} (c : ApiCache V) (id pid now : Int)
    (tmsg emsg : String) (ec : Int) (d : V)
    (h1 : (ApiCache.get c (getGroupInfoKey id) now).1 = none)
    (h2 : (ApiCache.get c (getInterfaceListKey pid) now).1 = none)
    (h3 : ¬ ec = 0) :
    getGroupInfo c id now (Except.error tmsg)
      = (Except.error (FetchErr.generic unknownDetailMsg),
          (ApiCache.get c (getGroupInfoKey id) now).2) ∧
    getGroupInfo c id now (Except.ok ⟨ec, emsg, d⟩)
      = (Except.error (FetchErr.api ec emsg), (ApiCache.get c (getGroupInfoKey id) now).2) ∧
    getInterfaceList c pid now (Except.error tmsg)
      = (Except.error (FetchErr.generic unknownListMsg),
          (ApiCache.get c (getInterfaceListKey pid) now).2) ∧
    getInterfaceList c pid now (Except.ok ⟨ec, emsg, d⟩)
      = (Except.error (FetchErr.api ec emsg),
          (ApiCache.get c (getInterfaceListKey pid) now).2) := by
  refine ⟨?_, ?_, ?_, ?_⟩
  · simp only [getGroupInfo, h1]
  · simp only [getGroupInfo, h1]
    rw [if_neg h3]
  · simp only [getInterfaceList, h2]
  · simp only [getInterfaceList, h2]
    rw [if_neg h3]

/-- Witness for C7: empty default cache (both lookups miss); origin error
`(404, "not found")` is rethrown as-is by both operations, transport error
`"T"` is replaced by the fixed generic errors. -/
theorem claim_c7_error_propagation_witness :
    getGroupInfo (ApiCache.ofConfig Nat ⟨none, none, none⟩) 7 0 (Except.error "T")
      = (Except.error (FetchErr.generic unknownDetailMsg),
          (ApiCache.get (ApiCache.ofConfig Nat ⟨none, none, none⟩) (getGroupInfoKey 7) 0).2) ∧
    getGroupInfo (ApiCache.ofConfig Nat ⟨none, none, none⟩) 7 0
        (Except.ok ⟨404, "not found", 0⟩)
      = (Except.error (FetchErr.api 404 "not found"),
          (ApiCache.get (ApiCache.ofConfig Nat ⟨none, none, none⟩) (getGroupInfoKey 7) 0).2) ∧
    getInterfaceList (ApiCache.ofConfig Nat ⟨none, none, none⟩) 3 0 (Except.error "T")
      = (Except.error (FetchErr.generic unknownListMsg),
          (ApiCache.get (ApiCache.ofConfig Nat ⟨none, none, none⟩) (getInterfaceListKey 3) 0).2) ∧
    getInterfaceList (ApiCache.ofConfig Nat ⟨none, none, none⟩) 3 0
        (Except.ok ⟨404, "not found", 0⟩)
      = (Except.error (FetchErr.api 404 "not found"),
          (ApiCache.get (ApiCache.ofConfig Nat ⟨none, none, none⟩) (getInterfaceListKey 3) 0).2) :=
  claim_c7_error_propagation (ApiCache.ofConfig Nat ⟨none, none, none⟩) 7 3 0 "T" "not found"
    404 0 rfl rfl (by decide)

theorem applyTtlArg_pos (cc : CacheConfig) (pv : Option Int) (h : PosCC cc) :
    PosCC (applyTtlArg cc pv) := by
  obtain ⟨⟨t, ht, htp⟩, ⟨m, hm, hmp⟩⟩ := h
  cases pv with
  | none => exact ⟨⟨t, ht, htp⟩, ⟨m, hm, hmp⟩⟩
  | some v =>
    by_cases hv : 0 < v
    · exact ⟨⟨v * 60000, by simp [applyTtlArg, hv], by omega⟩,
        ⟨m, by simp [applyTtlArg, hv, hm], hmp⟩⟩
    · exact ⟨⟨t, by simp [applyTtlArg, hv, ht], htp⟩,
        ⟨m, by simp [applyTtlArg, hv, hm], hmp⟩⟩

theorem applySizeArg_pos (cc : CacheConfig) (pv : Option Int) (h : PosCC cc) :
    PosCC (applySizeArg cc pv) := by
  obtain ⟨⟨t, ht, htp⟩, ⟨m, hm, hmp⟩⟩ := h
  cases pv with
  | none => exact ⟨⟨t, ht, htp⟩, ⟨m, hm, hmp⟩⟩
  | some v =>
    by_cases hv : 0 < v
    · exact ⟨⟨t, by simp [applySizeArg, hv, ht], htp⟩,
        ⟨v, by simp [applySizeArg, hv], hv⟩⟩
    · exact ⟨⟨t, by simp [applySizeArg, hv, ht], htp⟩,
        ⟨m, by simp [applySizeArg, hv, hm], hmp⟩⟩

theorem parseArgsLoop_posCC (pint : String → Option Int) :
    ∀ (args : List String) (st : Config), PosCC st.cacheConfig →
      PosCC (parseArgsLoop pint args st).cacheConfig
  | [], st, h => by
    simp only [parseArgsLoop]
    exact h
  | [a], st, h => by
    simp only [parseArgsLoop]
    split_ifs <;> exact h
  | a :: n :: rest2, st, h => by
    simp only [parseArgsLoop]
    split_ifs
    · exact parseArgsLoop_posCC pint rest2 _ h
    · exact parseArgsLoop_posCC pint rest2 _ h
    · exact parseArgsLoop_posCC pint rest2 _ (applyTtlArg_pos st.cacheConfig (pint n) h)
    · exact parseArgsLoop_posCC pint rest2 _ (applySizeArg_pos st.cacheConfig (pint n) h)
    · exact parseArgsLoop_posCC pint (n :: rest2) _ h
    · exact parseArgsLoop_posCC pint (n :: rest2) _ h
    · exact parseArgsLoop_posCC pint rest2 _ h
    · exact parseArgsLoop_posCC pint (n :: rest2) _ h
termination_by args _ _ => args.length
decreasing_by all_goals (simp_wf <;> omega)

/-- C9 counterexample: the constructor guard is JS `||`, which only replaces
`0` (falsy) or an absent field; a NEGATIVE configured ttl is truthy and kept
as-is, so the constructed store does not satisfy `ttl > 0` for every
`CacheConfig`. -/
theorem claim_c9_counterexample :
    ¬ (0 < (ApiCache.ofConfig Nat ⟨some (-5), none, none⟩).ttl) := by
  decide

/-- C9 (corrected): for every `CacheConfig` whose ttl/maxSize fields, when
present, are NONNEGATIVE, the constructed store has `ttl > 0` and
`maxSize > 0` (a value of 0, or an absent field, is replaced by the defaults
300000 ms resp. 100, so `maxSize = 0` is unreachable this way), and the store
is enabled iff `enabled` was not explicitly `false`; negative configured
values, however, are truthy in JS and are kept as-is.  The command-line
parser only ever produces strictly positive ttl and size values (its guards
require `parseInt` to yield a number `> 0`, starting from positive
defaults). -/
theorem claim_c9_config_positive :
    (∀ (V : Type) (cfg : CacheConfig),
        (∀ x, cfg.ttl = some x → 0 ≤ x) → (∀ x, cfg.maxSize = some x → 0 ≤ x) →
        0 < (ApiCache.ofConfig V cfg).ttl ∧ 0 < (ApiCache.ofConfig V cfg).maxSize ∧
          ((ApiCache.ofConfig V cfg).enabled = true ↔ cfg.enabled ≠ some false)) ∧
    (∀ (pint : String → Option Int) (args : List String) (conf : Config),
        getConfigFromArgs pint args = some conf → PosCC conf.cacheConfig) := by
  constructor
  · intro V cfg h1 h2
    refine ⟨?_, ?_, ?_⟩
    · show 0 < defaultTtl cfg.ttl
      cases hx : cfg.ttl with
      | none => simp [defaultTtl]
      | some t =>
        have := h1 t hx
        by_cases h0 : t = 0
        · simp [defaultTtl, h0]
        · simp only [defaultTtl, if_neg h0]
          omega
    · show 0 < defaultSize cfg.maxSize
      cases hx : cfg.maxSize with
      | none => simp [defaultSize]
      | some m =>
        have := h2 m hx
        by_cases h0 : m = 0
        · simp [defaultSize, h0]
        · simp only [defaultSize, if_neg h0]
          omega
    · show defaultEnabled cfg.enabled = true ↔ cfg.enabled ≠ some false
      cases he : cfg.enabled with
      | none => simp [defaultEnabled]
      | some b => cases b <;> simp [defaultEnabled]
  · intro pint args conf hconf
    unfold getConfigFromArgs at hconf
    split_ifs at hconf
    have hpos := parseArgsLoop_posCC pint args
      ⟨"", "", [], ⟨some 300000, some 100, some true⟩⟩
      ⟨⟨300000, rfl, by omega⟩, ⟨100, rfl, by omega⟩⟩
    injection hconf with hconf2
    subst hconf2
    exact hpos

/-- Witness for C9: a config with `ttl = 60000`, `maxSize = 10` (nonnegative)
yields a store with positive ttl and maxSize. -/
theorem claim_c9_config_positive_witness :
    0 < (ApiCache.ofConfig Nat ⟨some 60000, some 10, none⟩).ttl ∧
    0 < (ApiCache.ofConfig Nat ⟨some 60000, some 10, none⟩).maxSize :=
  ⟨(claim_c9_config_positive.1 Nat ⟨some 60000, some 10, none⟩
      (fun x hx => by injection hx with hh; omega)
      (fun x hx => by injection hx with hh; omega)).1,
   (claim_c9_config_positive.1 Nat ⟨some 60000, some 10, none⟩
      (fun x hx => by injection hx with hh; omega)
      (fun x hx => by injection hx with hh; omega)).2.1⟩
